import Mathlib

/-
Verification of the feedback aggregation and severity-classification logic
of the avishkaar-2025 trip-management frontend, embedded shallowly in Lean.
JavaScript numbers are modelled as rationals plus an explicit NaN value,
since the source compares feedback values with < and > and guards with a
typeof check that NaN also passes.
-/

namespace Avishkaar

/-- A JavaScript value as it flows into the feedback utilities: a finite
number (modelled as a rational), the number NaN, or a value of any other
runtime type. -/
inductive JSValue where
  | num (q : ℚ)
  | nan
  | nonNumber
  deriving DecidableEq, Repr

namespace JSValue

/-- The JavaScript check `typeof value === "number"`; NaN is a number. -/
def isNumberType : JSValue → Bool
  | num _ => true
  | nan => true
  | nonNumber => false

/-- JavaScript `value < c` for a numeric constant: false for NaN, and the
non-number case is only reached behind typeof guards in the source. -/
def jsLt : JSValue → ℚ → Bool
  | num q, c => decide (q < c)
  | nan, _ => false
  | nonNumber, _ => false

/-- JavaScript `value > c` for a numeric constant. -/
def jsGt : JSValue → ℚ → Bool
  | num q, c => decide (c < q)
  | nan, _ => false
  | nonNumber, _ => false

/-- JavaScript `value <= c` for a numeric constant. -/
def jsLe : JSValue → ℚ → Bool
  | num q, c => decide (q ≤ c)
  | nan, _ => false
  | nonNumber, _ => false

/-- JavaScript `value >= c` for a numeric constant. -/
def jsGe : JSValue → ℚ → Bool
  | num q, c => decide (c ≤ q)
  | nan, _ => false
  | nonNumber, _ => false

end JSValue

/-- The five severity tiers of `SEVERITY_LEVELS` in
frontend/src/utils/feedbackUtils.js, ordered EXCELLENT (best) to CRITICAL
(worst). -/
inductive Severity where
  | EXCELLENT
  | LOW
  | MODERATE
  | HIGH
  | CRITICAL
  deriving DecidableEq, Repr, Fintype

/-- The per-category configuration fields of `FEEDBACK_CATEGORIES` that the
computations read: scale direction and default threshold. -/
structure CategoryInfo where
  inverseScale : Bool
  defaultThreshold : ℚ
  deriving DecidableEq, Repr

/-- The `FEEDBACK_CATEGORIES` table of feedbackUtils.js, as a lookup from
category key to its configuration; unknown keys yield none (undefined). -/
def FEEDBACK_CATEGORIES : String → Option CategoryInfo
  | "tired" => some ⟨false, 7⟩
  | "energetic" => some ⟨true, 3⟩
  | "sick" => some ⟨false, 6⟩
  | "hungry" => some ⟨false, 7⟩
  | "adventurous" => some ⟨true, 3⟩
  | _ => none

/-- The `calculateSeverity` function of feedbackUtils.js: guard on
non-numbers and out-of-range numbers, then direction-dependent boundary
comparisons. The stored defaultThreshold is read but unused by the source. -/
def calculateSeverity (value : JSValue) (categoryKey : String) : Severity :=
  if !value.isNumberType || value.jsLt 1 || value.jsGt 10 then
    .MODERATE
  else
    match FEEDBACK_CATEGORIES categoryKey with
    | none => .MODERATE
    | some category =>
      if category.inverseScale then
        if value.jsLe 2 then .CRITICAL
        else if value.jsLe 3 then .HIGH
        else if value.jsLe 5 then .MODERATE
        else if value.jsLe 7 then .LOW
        else .EXCELLENT
      else
        if value.jsGe 9 then .CRITICAL
        else if value.jsGe 7 then .HIGH
        else if value.jsGe 5 then .MODERATE
        else if value.jsGe 3 then .LOW
        else .EXCELLENT

/-- The slice of aggregated feedback consumed by getOverallRiskLevel in the
useFeedback hook: the optional severity tier of each of the five category
aggregates. -/
structure FeedbackSnapshot where
  tired : Option Severity
  energetic : Option Severity
  sick : Option Severity
  hungry : Option Severity
  adventurous : Option Severity
  deriving DecidableEq, Repr

/-- The riskWeights table inside getOverallRiskLevel of the useFeedback
hook; the `or 3` fallback of the source is unreachable once the severity is
one of the five tiers. -/
def riskWeights : Severity → ℚ
  | .CRITICAL => 5
  | .HIGH => 4
  | .MODERATE => 3
  | .LOW => 2
  | .EXCELLENT => 1

/-- The getOverallRiskLevel callback of the useFeedback hook: collect the
tiers that are present, average their ranks, and classify the average with
cutoffs at 4.5, 3.5, 2.5 and 1.5. -/
def getOverallRiskLevel (feedbackData : Option FeedbackSnapshot) : String :=
  match feedbackData with
  | none => "UNKNOWN"
  | some d =>
    let severities :=
      [d.tired, d.energetic, d.sick, d.hungry, d.adventurous].filterMap id
    if severities.length = 0 then "UNKNOWN"
    else
      let avgRisk : ℚ := (severities.map riskWeights).sum / severities.length
      if 4.5 ≤ avgRisk then "CRITICAL"
      else if 3.5 ≤ avgRisk then "HIGH"
      else if 2.5 ≤ avgRisk then "MODERATE"
      else if 1.5 ≤ avgRisk then "LOW"
      else "EXCELLENT"

/-- Spec-side definition for the refinement of C2: the tier ranks the spec
names, EXCELLENT equal 1 up to CRITICAL equal 5. -/
def specTierRank : Severity → ℤ
  | .EXCELLENT => 1
  | .LOW => 2
  | .MODERATE => 3
  | .HIGH => 4
  | .CRITICAL => 5

/-- Spec-side definition for the refinement of C2: the tier a rounded mean
rank selects. -/
def specTierOfRank (r : ℤ) : String :=
  if r ≤ 1 then "EXCELLENT"
  else if r = 2 then "LOW"
  else if r = 3 then "MODERATE"
  else if r = 4 then "HIGH"
  else "CRITICAL"

/-- Spec-side definition for the refinement of C2: the uniform-weight mean
of the five per-category tier ranks, rounded to the nearest tier. -/
def specOverallRisk (s1 s2 s3 s4 s5 : Severity) : String :=
  specTierOfRank
    (round ((([s1, s2, s3, s4, s5].map specTierRank).sum : ℚ) / 5))

/-- The five category values of one submitted feedback payload. -/
structure FeedbackValues where
  tired : ℚ
  energetic : ℚ
  sick : ℚ
  hungry : ℚ
  adventurous : ℚ
  deriving DecidableEq, Repr

/-- The object setUserFeedback stores in the useFeedback hook on an accepted
submission: the activity id, the spread feedback values, the submission time
and the server-assigned id. -/
structure StoredFeedback where
  activityId : String
  values : FeedbackValues
  submittedAt : ℕ
  id : ℕ
  deriving DecidableEq, Repr

/-- The part of the useFeedback hook state that holds the current
participant's own feedback for the current activity. -/
structure UseFeedbackState where
  userFeedback : Option StoredFeedback
  deriving DecidableEq, Repr

/-- One pass of submitFeedbackData in the useFeedback hook: when the server
result reports success, setUserFeedback replaces the stored per-participant
feedback wholesale with the new submission; on failure the error path throws
and the stored feedback is left unchanged. -/
def submitFeedbackData (activityId : String) (st : UseFeedbackState)
    (feedback : FeedbackValues) (submittedAt : ℕ) (resultId : ℕ)
    (success : Bool) : UseFeedbackState :=
  if success then
    { st with userFeedback := some ⟨activityId, feedback, submittedAt, resultId⟩ }
  else st

/-- A sequence of accepted submissions by the participant for one activity,
each entry carrying the payload, its submission time and its server id. -/
def runAcceptedSubmissions (activityId : String) (st : UseFeedbackState)
    (subs : List (FeedbackValues × ℕ × ℕ)) : UseFeedbackState :=
  subs.foldl
    (fun s sub => submitFeedbackData activityId s sub.1 sub.2.1 sub.2.2 true) st

/-- JavaScript truthiness of an optional string field: absent and the empty
string are falsy. -/
def strTruthy : Option String → Bool
  | none => false
  | some s => decide (s ≠ "")

/-- The per-category test of validateFeedbackData in feedbackApi.js:
the value is rejected when it is not of number type, below 1, or above 10;
NaN passes all three comparisons. -/
def jsInvalidValue (v : JSValue) : Bool :=
  !v.isNumberType || v.jsLt 1 || v.jsGt 10

/-- The payload validateFeedbackData inspects: both activity-id spellings
and the five category values. -/
structure SubmissionData where
  activityId : Option String
  activity_id : Option String
  tired : JSValue
  energetic : JSValue
  sick : JSValue
  hungry : JSValue
  adventurous : JSValue
  deriving DecidableEq, Repr

/-- The result object of validateFeedbackData. -/
structure ValidationResult where
  isValid : Bool
  errors : List String
  deriving DecidableEq, Repr

/-- validateFeedbackData of feedbackApi.js: one error when both activity-id
fields are falsy, plus one error per category value that fails the numeric
range test; valid when the error list is empty. -/
def validateFeedbackData (d : SubmissionData) : ValidationResult :=
  let idErrors :=
    if !strTruthy d.activityId && !strTruthy d.activity_id then
      ["Activity ID is required"]
    else []
  let catErrors :=
    (if jsInvalidValue d.tired then ["Tired must be between 1 and 10"] else []) ++
    (if jsInvalidValue d.energetic then ["Energetic must be between 1 and 10"] else []) ++
    (if jsInvalidValue d.sick then ["Sick must be between 1 and 10"] else []) ++
    (if jsInvalidValue d.hungry then ["Hungry must be between 1 and 10"] else []) ++
    (if jsInvalidValue d.adventurous then ["Adventurous must be between 1 and 10"] else [])
  let errors := idErrors ++ catErrors
  ⟨errors.isEmpty, errors⟩

/-- The five slider values held by the ActivityFeedback component. -/
structure FeedbackForm where
  tired : JSValue
  energetic : JSValue
  sick : JSValue
  hungry : JSValue
  adventurous : JSValue
  deriving DecidableEq, Repr

/-- The data flow of handleSubmit in ActivityFeedback.js: build
validationData substituting a generated fallback id of the shape
activity-timestamp whenever the activityId prop is falsy, validate it, and
on success send the original non-defaulted activityId together with the
form values; on validation failure nothing is sent. The value returned is
the payload passed to submitFeedback, or none when the submission is
rejected. -/
def handleSubmit (activityId : Option String) (generatedId : String)
    (form : FeedbackForm) : Option SubmissionData :=
  let validationData : SubmissionData :=
    { activityId := if strTruthy activityId then activityId else some generatedId
      activity_id := none
      tired := form.tired
      energetic := form.energetic
      sick := form.sick
      hungry := form.hungry
      adventurous := form.adventurous }
  if (validateFeedbackData validationData).isValid then
    some { activityId := activityId
           activity_id := none
           tired := form.tired
           energetic := form.energetic
           sick := form.sick
           hungry := form.hungry
           adventurous := form.adventurous }
  else none

/-- getResponseRate of VotingInterface.js: 0 when the participant count is
0, otherwise Math.round of the responded fraction scaled to percent. -/
def getResponseRate (respondedParticipants participantCount : ℕ) : ℤ :=
  if participantCount = 0 then 0
  else round (((respondedParticipants : ℚ) / participantCount) * 100)

/-- One entry of the participants list kept by the useWebSocket hook. -/
structure Participant where
  user_id : String
  username : String
  connected : Bool
  deriving DecidableEq, Repr

/-- The participant_joined branch of handleMessage in useWebSocket.js: when
an entry with the arriving user_id already exists the previous list is
returned unchanged, otherwise a new connected entry is appended. -/
def handleParticipantJoined (prev : List Participant)
    (user_id username : String) : List Participant :=
  match prev.find? (fun p => p.user_id == user_id) with
  | some _ => prev
  | none => prev ++ [⟨user_id, username, true⟩]

/-- An event emitted by the Threshold Monitor alert logic. -/
inductive AlertEvent where
  | raised (overallTier : Severity)
  | cleared (overallTier : Severity)
  deriving DecidableEq, Repr

/-- Whether an alert event is a risk-alert-raised event. -/
def AlertEvent.isRaisedEvent : AlertEvent → Bool
  | raised _ => true
  | cleared _ => false

/-- Modelled from the spec: the overall tiers that raise the risk alert are
HIGH and CRITICAL; everything at MODERATE or below clears it. The Threshold
Monitor itself is server-side code absent from the frontend sources. -/
def isAlarmingTier (t : Severity) : Bool :=
  t == .HIGH || t == .CRITICAL

/-- Modelled from the spec: one evaluation step of the Threshold Monitor's
edge-triggered alert logic, absent from the frontend sources. An alert is
raised the first time overallTier reaches HIGH or CRITICAL since the last
clear, and cleared when the tier drops back to MODERATE or below; while an
alert stays active, repeated alarming tiers emit nothing. -/
def monitorStep (alertActive : Bool) (overallTier : Severity) :
    Bool × List AlertEvent :=
  if isAlarmingTier overallTier then
    if alertActive then (true, []) else (true, [.raised overallTier])
  else
    if alertActive then (false, [.cleared overallTier]) else (false, [])

/-- Modelled from the spec: a run of the Threshold Monitor over a sequence
of overall tiers, collecting the emitted alert events in order. -/
def monitorRun (alertActive : Bool) (tiers : List Severity) :
    Bool × List AlertEvent :=
  match tiers with
  | [] => (alertActive, [])
  | t :: ts =>
    let s := monitorStep alertActive t
    let rest := monitorRun s.1 ts
    (rest.1, s.2 ++ rest.2)

/-- The retry loop of retryWithBackoff in errorHandling.js, the i-th
invocation of fn modelled as attempts i counting from 1 and the thrown
value made explicit: error none is the initial undefined lastError, thrown
when maxRetries is 0 and the loop body never runs. The remaining argument
counts the attempts still allowed. -/
def retryGo {E A : Type} (attempts : ℕ → Except E A) (attempt : ℕ) :
    ℕ → Except (Option E) A
  | 0 => .error none
  | remaining + 1 =>
    match attempts attempt with
    | .ok a => .ok a
    | .error e =>
      if remaining = 0 then .error (some e)
      else retryGo attempts (attempt + 1) remaining

/-- retryWithBackoff of errorHandling.js: run fn up to maxRetries times
starting at attempt 1, return the first success, rethrow the error of the
final failed attempt. The backoff delays between attempts do not influence
the returned value and are not modelled. -/
def retryWithBackoff {E A : Type} (attempts : ℕ → Except E A)
    (maxRetries : ℕ) : Except (Option E) A :=
  retryGo attempts 1 maxRetries

/-- JavaScript truthiness of the average field as tested by the `data and
data.average` guard in calculateOptimalDuration: the number 0 and NaN are
falsy; non-number values reaching this spot are treated as truthy objects,
whose numeric comparisons below are all false. -/
def jsTruthy : JSValue → Bool
  | .num q => decide (q ≠ 0)
  | .nan => false
  | .nonNumber => true

/-- The slice of the aggregated feedback object read by
calculateOptimalDuration: the average fields of the tired, energetic and
hungry aggregates, absent when the category carries no data object. -/
structure DurationFeedback where
  tired : Option JSValue
  energetic : Option JSValue
  hungry : Option JSValue
  deriving DecidableEq, Repr

/-- The adjustment accumulated by the forEach loop of
calculateOptimalDuration in feedbackUtils.js: tiredness above 6 subtracts
20 percent, energy below 4 subtracts 10 percent, hunger above 6 subtracts
15 percent, each gated on the category average being present and truthy. -/
def durationAdjustmentFactor (d : DurationFeedback) : ℚ :=
  (match d.tired with
   | some v => if jsTruthy v && v.jsGt 6 then -(1/5 : ℚ) else 0
   | none => 0) +
  (match d.energetic with
   | some v => if jsTruthy v && v.jsLt 4 then -(1/10 : ℚ) else 0
   | none => 0) +
  (match d.hungry with
   | some v => if jsTruthy v && v.jsGt 6 then -(3/20 : ℚ) else 0
   | none => 0)

/-- The recommended field computed by calculateOptimalDuration in
feedbackUtils.js: Math.round of the adjusted base duration, floored at 15
minutes. -/
def calculateOptimalDuration (d : DurationFeedback) (baseDuration : ℚ) : ℤ :=
  max (round (baseDuration * (1 + durationAdjustmentFactor d))) 15

section Theorems

theorem riskWeights_eq_rank (s : Severity) : riskWeights s = (specTierRank s : ℚ) := by
  cases s <;> norm_num [riskWeights, specTierRank]

theorem specTierRank_bounds (s : Severity) : 1 ≤ specTierRank s ∧ specTierRank s ≤ 5 := by
  cases s <;> decide

theorem riskClassify_eq_roundedTier (S : ℤ) (h5 : 5 ≤ S) (h25 : S ≤ 25) :
    (if (4.5:ℚ) ≤ (S:ℚ)/5 then "CRITICAL"
     else if (3.5:ℚ) ≤ (S:ℚ)/5 then "HIGH"
     else if (2.5:ℚ) ≤ (S:ℚ)/5 then "MODERATE"
     else if (1.5:ℚ) ≤ (S:ℚ)/5 then "LOW"
     else "EXCELLENT") = specTierOfRank (round ((S:ℚ)/5)) := by
  interval_cases S <;>
    · rw [round_eq]
      norm_num [Int.floor_eq_iff, specTierOfRank]

/-- C1 counterexample: at scale value 4 the inverse-scale branch of
calculateSeverity returns MODERATE, while the higher-is-worse boundary rule
applied to the complement 11 - 4 = 7 returns HIGH, so the two directions do
not share one set of tier boundaries. -/
theorem calculateSeverity_complement_fails_at_four :
    calculateSeverity (.num 4) "energetic" = Severity.MODERATE ∧
    calculateSeverity (.num ((11 - 4 : ℕ) : ℚ)) "tired" = Severity.HIGH ∧
    calculateSeverity (.num 4) "energetic" ≠
      calculateSeverity (.num ((11 - 4 : ℕ) : ℚ)) "tired" := by
  refine ⟨rfl, rfl, ?_⟩
  intro h
  exact absurd h (by decide)

/-- C1 (amended): for every scale value v other than 4, 6 and 8 and every
lower-is-worse category, calculateSeverity agrees with the higher-is-worse
boundary rule applied to the complement 11 - v; at 4, 6 and 8 the hard-coded
inverse boundaries instead give the neighbouring less severe tier. -/
theorem calculateSeverity_complement_amended (v : ℕ) (h1 : 1 ≤ v) (h2 : v ≤ 10)
    (h4 : v ≠ 4) (h6 : v ≠ 6) (h8 : v ≠ 8)
    (c : String) (hc : c = "energetic" ∨ c = "adventurous")
    (n : String) (hn : n = "tired" ∨ n = "sick" ∨ n = "hungry") :
    calculateSeverity (.num v) c = calculateSeverity (.num ((11 - v : ℕ) : ℚ)) n := by
  rcases hc with rfl | rfl <;> rcases hn with rfl | rfl | rfl <;>
    interval_cases v <;> simp_all <;> rfl

/-- Witness for the amended C1 at scale value 5. -/
theorem calculateSeverity_complement_amended_witness :
    calculateSeverity (.num (5:ℕ)) "energetic" =
      calculateSeverity (.num ((11 - 5 : ℕ) : ℚ)) "tired" :=
  calculateSeverity_complement_amended 5 (by norm_num) (by norm_num) (by norm_num)
    (by norm_num) (by norm_num) "energetic" (Or.inl rfl) "tired" (Or.inl rfl)

/-- C2: when all five categories carry a severity tier, getOverallRiskLevel
returns the uniform-weight mean of the per-category tier ranks rounded to
the nearest tier, as defined by the spec-side specOverallRisk. -/
theorem getOverallRiskLevel_eq_rounded_mean (s1 s2 s3 s4 s5 : Severity) :
    getOverallRiskLevel (some ⟨some s1, some s2, some s3, some s4, some s5⟩) =
      specOverallRisk s1 s2 s3 s4 s5 := by
  have hb1 := specTierRank_bounds s1
  have hb2 := specTierRank_bounds s2
  have hb3 := specTierRank_bounds s3
  have hb4 := specTierRank_bounds s4
  have hb5 := specTierRank_bounds s5
  have hsum_eq : ([s1,s2,s3,s4,s5].map riskWeights).sum =
      ((([s1,s2,s3,s4,s5].map specTierRank).sum : ℤ) : ℚ) := by
    simp [riskWeights_eq_rank]
  have hS5 : (5:ℤ) ≤ ([s1,s2,s3,s4,s5].map specTierRank).sum := by
    simp only [List.map_cons, List.map_nil, List.sum_cons, List.sum_nil, add_zero]
    linarith [hb1.1, hb2.1, hb3.1, hb4.1, hb5.1]
  have hS25 : ([s1,s2,s3,s4,s5].map specTierRank).sum ≤ 25 := by
    simp only [List.map_cons, List.map_nil, List.sum_cons, List.sum_nil, add_zero]
    linarith [hb1.2, hb2.2, hb3.2, hb4.2, hb5.2]
  have hkey := riskClassify_eq_roundedTier _ hS5 hS25
  show (if (4.5:ℚ) ≤ ([s1,s2,s3,s4,s5].map riskWeights).sum / ((5:ℕ):ℚ) then "CRITICAL"
        else if (3.5:ℚ) ≤ ([s1,s2,s3,s4,s5].map riskWeights).sum / ((5:ℕ):ℚ) then "HIGH"
        else if (2.5:ℚ) ≤ ([s1,s2,s3,s4,s5].map riskWeights).sum / ((5:ℕ):ℚ) then "MODERATE"
        else if (1.5:ℚ) ≤ ([s1,s2,s3,s4,s5].map riskWeights).sum / ((5:ℕ):ℚ) then "LOW"
        else "EXCELLENT")
      = specTierOfRank (round ((([s1,s2,s3,s4,s5].map specTierRank).sum : ℚ) / 5))
  rw [hsum_eq]
  push_cast at hkey ⊢
  norm_num at hkey ⊢
  exact hkey


theorem round_mono_rat {x y : ℚ} (h : x ≤ y) : round x ≤ round y := by
  rw [round_eq, round_eq]
  exact Int.floor_le_floor (by linarith)

/-- C3: replace semantics in the useFeedback hook: after a sequence of
accepted submissions ending with the Kth one, the stored per-participant
feedback is exactly the Kth submission; the state holds at most one sample
for the (activity, participant) pair by construction. -/
theorem submitFeedbackData_replace (activityId : String) (st : UseFeedbackState)
    (subs : List (FeedbackValues × ℕ × ℕ)) (last : FeedbackValues × ℕ × ℕ) :
    (runAcceptedSubmissions activityId st (subs ++ [last])).userFeedback =
      some ⟨activityId, last.1, last.2.1, last.2.2⟩ := by
  simp [runAcceptedSubmissions, List.foldl_append, submitFeedbackData]

theorem validateFeedbackData_isValid_eq (d : SubmissionData) :
    (validateFeedbackData d).isValid =
      !((!strTruthy d.activityId && !strTruthy d.activity_id)
        || jsInvalidValue d.tired || jsInvalidValue d.energetic
        || jsInvalidValue d.sick || jsInvalidValue d.hungry
        || jsInvalidValue d.adventurous) := by
  unfold validateFeedbackData
  cases (!strTruthy d.activityId && !strTruthy d.activity_id) <;>
    cases jsInvalidValue d.tired <;> cases jsInvalidValue d.energetic <;>
    cases jsInvalidValue d.sick <;> cases jsInvalidValue d.hungry <;>
    cases jsInvalidValue d.adventurous <;> rfl

/-- C4 counterexample: with the activityId prop absent and all five sliders
at 5, handleSubmit generates a fallback id, validation passes, and the
payload is sent, so a submission with a missing activity id is not
rejected. -/
theorem handleSubmit_missing_id_not_rejected :
    (handleSubmit none "activity-1730000000000"
      ⟨.num 5, .num 5, .num 5, .num 5, .num 5⟩).isSome = true := by
  rfl

/-- C4 (amended): validateFeedbackData reports invalid exactly when both
activity-id spellings are falsy or some category value fails the numeric
range test, and handleSubmit, which validates with a truthy generated
fallback id, rejects and sends nothing exactly when some category value
fails the test: a missing activity id alone never blocks the send. -/
theorem handleSubmit_rejection_amended (d : SubmissionData)
    (activityId : Option String) (generatedId : String) (hg : generatedId ≠ "")
    (form : FeedbackForm) :
    ((validateFeedbackData d).isValid = false ↔
      ((!strTruthy d.activityId && !strTruthy d.activity_id)
        || jsInvalidValue d.tired || jsInvalidValue d.energetic
        || jsInvalidValue d.sick || jsInvalidValue d.hungry
        || jsInvalidValue d.adventurous) = true) ∧
    (handleSubmit activityId generatedId form = none ↔
      (jsInvalidValue form.tired || jsInvalidValue form.energetic
        || jsInvalidValue form.sick || jsInvalidValue form.hungry
        || jsInvalidValue form.adventurous) = true) := by
  constructor
  · rw [validateFeedbackData_isValid_eq]
    cases hX : ((!strTruthy d.activityId && !strTruthy d.activity_id)
        || jsInvalidValue d.tired || jsInvalidValue d.energetic
        || jsInvalidValue d.sick || jsInvalidValue d.hungry
        || jsInvalidValue d.adventurous) <;> simp
  · have hidT : strTruthy (if strTruthy activityId then activityId else some generatedId) = true := by
      cases h : strTruthy activityId with
      | false => simp [h, strTruthy, hg]
      | true => simp [h]
    unfold handleSubmit
    simp only [validateFeedbackData_isValid_eq]
    have hpre : (!strTruthy (if strTruthy activityId then activityId else some generatedId)
        && !strTruthy (none : Option String)) = false := by
      rw [hidT]
      rfl
    rw [hpre]
    cases hflag : (jsInvalidValue form.tired || jsInvalidValue form.energetic
        || jsInvalidValue form.sick || jsInvalidValue form.hungry
        || jsInvalidValue form.adventurous) <;> simp [hflag]

/-- Closed witness for the amended C4 at a concrete rejected submission. -/
theorem handleSubmit_rejection_amended_witness :
    ((validateFeedbackData ⟨none, none, .num 0, .num 5, .num 5, .num 5, .num 5⟩).isValid = false ↔
      ((!strTruthy (none : Option String) && !strTruthy (none : Option String))
        || jsInvalidValue (.num 0) || jsInvalidValue (.num 5)
        || jsInvalidValue (.num 5) || jsInvalidValue (.num 5)
        || jsInvalidValue (.num 5)) = true) ∧
    (handleSubmit none "activity-1" ⟨.num 0, .num 5, .num 5, .num 5, .num 5⟩ = none ↔
      (jsInvalidValue (.num 0) || jsInvalidValue (.num 5)
        || jsInvalidValue (.num 5) || jsInvalidValue (.num 5)
        || jsInvalidValue (.num 5)) = true) :=
  handleSubmit_rejection_amended ⟨none, none, .num 0, .num 5, .num 5, .num 5, .num 5⟩
    none "activity-1" (by decide) ⟨.num 0, .num 5, .num 5, .num 5, .num 5⟩

/-- C5 counterexample: with 3 responded participants out of 2 live members
the computed response rate is 150 percent, outside the claimed [0,1]
bound. -/
theorem getResponseRate_exceeds_hundred :
    getResponseRate 3 2 = 150 ∧ ¬(getResponseRate 3 2 ≤ 100) := by
  have h : getResponseRate 3 2 = 150 := by
    unfold getResponseRate
    norm_num [round_eq, Int.floor_eq_iff]
  refine ⟨h, ?_⟩
  rw [h]
  norm_num

/-- C5 (amended): the response rate is the rounded percentage of responders
among members, 0 when the member count is 0, and it lies between 0 and 100
whenever the responded count does not exceed the member count. -/
theorem getResponseRate_bounded (responded members : ℕ) (h : responded ≤ members) :
    0 ≤ getResponseRate responded members ∧ getResponseRate responded members ≤ 100 := by
  unfold getResponseRate
  split_ifs with hm
  · norm_num
  · have hm' : (0:ℚ) < members := by
      exact_mod_cast Nat.pos_of_ne_zero hm
    have hx0 : (0:ℚ) ≤ (responded:ℚ)/members * 100 := by positivity
    have hx1 : (responded:ℚ)/members * 100 ≤ 100 := by
      have hr : (responded:ℚ)/members ≤ 1 := by
        rw [div_le_one hm']
        exact_mod_cast h
      nlinarith
    constructor
    · calc (0:ℤ) = round (0:ℚ) := round_zero.symm
        _ ≤ round ((responded:ℚ)/members * 100) := round_mono_rat hx0
    · calc round ((responded:ℚ)/members * 100) ≤ round (100:ℚ) := round_mono_rat hx1
        _ = 100 := by norm_num

/-- Closed witness for the amended C5 at 1 responder among 2 members. -/
theorem getResponseRate_bounded_witness :
    0 ≤ getResponseRate 1 2 ∧ getResponseRate 1 2 ≤ 100 :=
  getResponseRate_bounded 1 2 (by norm_num)

/-- C6 counterexample: a participant_joined event for user u1 arriving while
u1 already has an entry leaves the old entry in place, so the list does not
reflect the newly arrived session's data. -/
theorem handleParticipantJoined_keeps_old_entry :
    handleParticipantJoined [⟨"u1", "old", true⟩] "u1" "new" =
      [⟨"u1", "old", true⟩] ∧
    handleParticipantJoined [⟨"u1", "old", true⟩] "u1" "new" ≠
      [⟨"u1", "new", true⟩] := by
  refine ⟨rfl, ?_⟩
  intro h
  rw [show handleParticipantJoined [⟨"u1", "old", true⟩] "u1" "new" =
      [⟨"u1", "old", true⟩] from rfl] at h
  simp at h

/-- C6 (amended): when a participant_joined event arrives for a user who
already has an entry, the event is ignored and the existing entry wins
(first-writer-wins, not last-writer-wins); an unseen participant is
appended, and a list without duplicate user ids never gains one. -/
theorem handleParticipantJoined_first_writer_wins (prev : List Participant)
    (uid uname : String)
    (hnodup : (prev.map Participant.user_id).Nodup) :
    (prev.any (fun p => p.user_id == uid) = true →
        handleParticipantJoined prev uid uname = prev) ∧
    (prev.any (fun p => p.user_id == uid) = false →
        handleParticipantJoined prev uid uname = prev ++ [⟨uid, uname, true⟩]) ∧
    ((handleParticipantJoined prev uid uname).map Participant.user_id).Nodup := by
  cases hfind : prev.find? (fun p => p.user_id == uid) with
  | some p =>
    have hres : handleParticipantJoined prev uid uname = prev := by
      unfold handleParticipantJoined
      rw [hfind]
    refine ⟨fun _ => hres, ?_, by rw [hres]; exact hnodup⟩
    intro hany
    have hmem := List.mem_of_find?_eq_some hfind
    have hp := List.find?_some hfind
    have : prev.any (fun p => p.user_id == uid) = true :=
      List.any_eq_true.mpr ⟨p, hmem, hp⟩
    simp [this] at hany
  | none =>
    have hnone := List.find?_eq_none.mp hfind
    have hres : handleParticipantJoined prev uid uname = prev ++ [⟨uid, uname, true⟩] := by
      unfold handleParticipantJoined
      rw [hfind]
    refine ⟨?_, fun _ => hres, ?_⟩
    · intro hany
      rcases List.any_eq_true.mp hany with ⟨q, hq, hq2⟩
      exact absurd hq2 (by simpa using hnone q hq)
    · rw [hres, List.map_append, List.nodup_append]
      refine ⟨hnodup, by simp, ?_⟩
      intro a ha hb
      simp only [List.map_cons, List.map_nil, List.mem_singleton] at hb
      rcases List.mem_map.mp ha with ⟨q, hq, hq2⟩
      have hquid : (q.user_id == uid) = true := by simp [hq2, hb]
      exact absurd hquid (by simpa using hnone q hq)

/-- Closed witness for the amended C6 on the empty room. -/
theorem handleParticipantJoined_first_writer_wins_witness :
    (([] : List Participant).any (fun p => p.user_id == "u1") = true →
        handleParticipantJoined [] "u1" "n" = []) ∧
    (([] : List Participant).any (fun p => p.user_id == "u1") = false →
        handleParticipantJoined [] "u1" "n" = [] ++ [⟨"u1", "n", true⟩]) ∧
    ((handleParticipantJoined [] "u1" "n").map Participant.user_id).Nodup :=
  handleParticipantJoined_first_writer_wins [] "u1" "n" (by simp)



theorem monitorRun_active_all_alarming (tiers : List Severity)
    (h : ∀ t ∈ tiers, isAlarmingTier t = true) :
    monitorRun true tiers = (true, []) := by
  induction tiers with
  | nil => rfl
  | cons t ts ih =>
    have ht := h t (List.mem_cons_self t ts)
    have hts : ∀ x ∈ ts, isAlarmingTier x = true :=
      fun x hx => h x (List.mem_cons_of_mem t hx)
    simp [monitorRun, monitorStep, ht, ih hts]

/-- C7: the modelled Threshold Monitor alert is edge-triggered: over any
nonempty run of consecutive alarming overall tiers (HIGH or CRITICAL) the
monitor emits exactly one risk-alert-raised event when it starts from a
cleared state and none when an alert is already active, so reaching an
alarming tier twice in a row without an intervening clear raises once. -/
theorem riskAlert_edge_triggered (tiers : List Severity)
    (halarm : ∀ t ∈ tiers, isAlarmingTier t = true) (hne : tiers ≠ []) :
    (monitorRun false tiers).2.countP (fun e => e.isRaisedEvent) = 1 ∧
    (monitorRun true tiers).2.countP (fun e => e.isRaisedEvent) = 0 := by
  constructor
  · cases tiers with
    | nil => exact absurd rfl hne
    | cons t ts =>
      have ht := halarm t (List.mem_cons_self t ts)
      have hts : ∀ x ∈ ts, isAlarmingTier x = true :=
        fun x hx => halarm x (List.mem_cons_of_mem t hx)
      simp [monitorRun, monitorStep, ht, monitorRun_active_all_alarming ts hts,
        AlertEvent.isRaisedEvent]
  · rw [monitorRun_active_all_alarming tiers halarm]
    rfl

/-- Closed witness for C7 on the run HIGH then CRITICAL. -/
theorem riskAlert_edge_triggered_witness :
    (monitorRun false [Severity.HIGH, Severity.CRITICAL]).2.countP
        (fun e => e.isRaisedEvent) = 1 ∧
    (monitorRun true [Severity.HIGH, Severity.CRITICAL]).2.countP
        (fun e => e.isRaisedEvent) = 0 :=
  riskAlert_edge_triggered [Severity.HIGH, Severity.CRITICAL]
    (by decide) (by decide)

theorem retryGo_congr {E A : Type} (f g : ℕ → Except E A) (r : ℕ) :
    ∀ a : ℕ, (∀ i, a ≤ i → i < a + r → f i = g i) →
      retryGo f a r = retryGo g a r := by
  induction r with
  | zero => intro a _; rfl
  | succ r ih =>
    intro a h
    have hfa : f a = g a := h a le_rfl (by omega)
    unfold retryGo
    rw [hfa]
    cases g a with
    | ok v => rfl
    | error e =>
      by_cases hr : r = 0
      · simp [hr]
      · simp only [hr, if_false]
        exact ih (a + 1) (fun i h1 h2 => h i (by omega) (by omega))

theorem retryGo_first_success {E A : Type} (f : ℕ → Except E A) (r : ℕ) :
    ∀ a k : ℕ, ∀ v : A, a ≤ k → k < a + r → f k = .ok v →
      (∀ j, a ≤ j → j < k → ∃ e, f j = .error e) →
      retryGo f a r = .ok v := by
  induction r with
  | zero => intro a k v _ h2 _ _; omega
  | succ r ih =>
    intro a k v hak hkr hk hfail
    by_cases hka : k = a
    · subst hka
      simp [retryGo, hk]
    · have ha : a < k := lt_of_le_of_ne hak (Ne.symm hka)
      obtain ⟨e, he⟩ := hfail a le_rfl ha
      have hr0 : r ≠ 0 := by omega
      simp only [retryGo, he, hr0, if_false]
      exact ih (a + 1) k v (by omega) (by omega) hk
        (fun j h1 h2 => hfail j (by omega) h2)

theorem retryGo_all_fail {E A : Type} (f : ℕ → Except E A) (errs : ℕ → E) (r : ℕ) :
    ∀ a : ℕ, 1 ≤ r → (∀ j, a ≤ j → j < a + r → f j = .error (errs j)) →
      retryGo f a r = .error (some (errs (a + r - 1))) := by
  induction r with
  | zero => intro a h1 _; omega
  | succ r ih =>
    intro a _ h
    have hfa : f a = .error (errs a) := h a le_rfl (by omega)
    by_cases hr0 : r = 0
    · subst hr0
      simp [retryGo, hfa]
    · simp only [retryGo, hfa, hr0, if_false]
      have h2 := ih (a + 1) (by omega) (fun j h1 h2 => h j (by omega) (by omega))
      have heq : a + 1 + r - 1 = a + (r + 1) - 1 := by omega
      rw [h2, heq]

/-- C8: retryWithBackoff reads only the outcomes of attempts 1 to
maxRetries, returns the result of the first successful attempt, and when
every attempt up to maxRetries fails it rethrows the error of the final
attempt, never swallowing it. -/
theorem retryWithBackoff_spec {E A : Type} (attempts : ℕ → Except E A)
    (maxRetries : ℕ) :
    (∀ attempts2 : ℕ → Except E A,
        (∀ i, 1 ≤ i → i ≤ maxRetries → attempts i = attempts2 i) →
        retryWithBackoff attempts maxRetries = retryWithBackoff attempts2 maxRetries) ∧
    (∀ k : ℕ, ∀ v : A, 1 ≤ k → k ≤ maxRetries → attempts k = .ok v →
        (∀ j, 1 ≤ j → j < k → ∃ e, attempts j = .error e) →
        retryWithBackoff attempts maxRetries = .ok v) ∧
    (∀ errs : ℕ → E, 1 ≤ maxRetries →
        (∀ j, 1 ≤ j → j ≤ maxRetries → attempts j = .error (errs j)) →
        retryWithBackoff attempts maxRetries = .error (some (errs maxRetries))) := by
  refine ⟨?_, ?_, ?_⟩
  · intro g hg
    exact retryGo_congr attempts g maxRetries 1 (fun i h1 h2 => hg i h1 (by omega))
  · intro k v h1 h2 hk hfail
    exact retryGo_first_success attempts maxRetries 1 k v h1 (by omega) hk hfail
  · intro errs h1 hall
    have h2 := retryGo_all_fail attempts errs maxRetries 1 h1
      (fun j hj1 hj2 => hall j hj1 (by omega))
    have heq : 1 + maxRetries - 1 = maxRetries := by omega
    rw [retryWithBackoff, h2, heq]

/-- Closed witness for C8: with attempt 1 failing and attempt 2 succeeding,
three allowed retries return the attempt-2 result. -/
theorem retryWithBackoff_spec_witness :
    retryWithBackoff (fun i => if i = 2 then Except.ok 7 else Except.error "boom") 3 =
      Except.ok 7 := by
  refine (retryWithBackoff_spec
      (fun i => if i = 2 then Except.ok 7 else Except.error "boom") 3).2.1
    2 7 (by norm_num) (by norm_num) (by norm_num) ?_
  intro j h1 h2
  have hj : j = 1 := by omega
  subst hj
  exact ⟨"boom", rfl⟩

/-- C9 counterexample: NaN is of number type yet compares false against the
range bounds, so it passes the guard of calculateSeverity and, on a
higher-is-worse category, falls through every boundary to EXCELLENT rather
than the claimed MODERATE. -/
theorem calculateSeverity_nan_excellent :
    calculateSeverity JSValue.nan "tired" = Severity.EXCELLENT ∧
    calculateSeverity JSValue.nan "tired" ≠ Severity.MODERATE := by
  refine ⟨rfl, ?_⟩
  intro h
  rw [show calculateSeverity JSValue.nan "tired" = Severity.EXCELLENT from rfl] at h
  cases h

/-- C9 (amended): calculateSeverity is total and returns MODERATE whenever
the value is of non-number runtime type, is a number below 1 or above 10, or
the category key is unknown; NaN is the one number outside [1,10] that
instead slips past the guard and yields EXCELLENT. -/
theorem calculateSeverity_guard_moderate (value : JSValue) (key : String)
    (h : value = JSValue.nonNumber ∨
         (∃ q : ℚ, value = JSValue.num q ∧ (q < 1 ∨ 10 < q)) ∨
         FEEDBACK_CATEGORIES key = none) :
    calculateSeverity value key = Severity.MODERATE := by
  rcases h with rfl | ⟨q, rfl, hq⟩ | hkey
  · rfl
  · rcases hq with hq | hq <;>
      simp [calculateSeverity, JSValue.isNumberType, JSValue.jsLt, JSValue.jsGt, hq,
        not_lt_of_lt]
  · cases hguard : (!value.isNumberType || value.jsLt 1 || value.jsGt 10) <;>
      simp [calculateSeverity, hguard, hkey]

/-- Closed witness for the amended C9 at the out-of-range value 0. -/
theorem calculateSeverity_guard_moderate_witness :
    calculateSeverity (JSValue.num 0) "tired" = Severity.MODERATE :=
  calculateSeverity_guard_moderate (JSValue.num 0) "tired"
    (Or.inr (Or.inl ⟨0, rfl, Or.inl (by norm_num)⟩))

theorem durationAdjustmentFactor_bounds (d : DurationFeedback) :
    -(9/20 : ℚ) ≤ durationAdjustmentFactor d ∧ durationAdjustmentFactor d ≤ 0 := by
  rcases d with ⟨t, e, hu⟩
  rcases t with _ | tv <;> rcases e with _ | ev <;> rcases hu with _ | hv <;>
    simp only [durationAdjustmentFactor] <;> (try split_ifs) <;> norm_num

/-- C10: the recommended duration returned by calculateOptimalDuration is at
least 15 minutes and at most max(round(baseDuration), 15), because the
accumulated adjustment factor is never positive: feedback can only shorten
an activity. -/
theorem calculateOptimalDuration_bounds (d : DurationFeedback) (base : ℚ) :
    durationAdjustmentFactor d ≤ 0 ∧
    15 ≤ calculateOptimalDuration d base ∧
    calculateOptimalDuration d base ≤ max (round base) 15 := by
  obtain ⟨hlow, hhigh⟩ := durationAdjustmentFactor_bounds d
  refine ⟨hhigh, le_max_right _ _, ?_⟩
  unfold calculateOptimalDuration
  rcases le_or_lt 0 base with hb | hb
  · have hmul : base * (1 + durationAdjustmentFactor d) ≤ base := by nlinarith
    exact max_le_max (round_mono_rat hmul) le_rfl
  · have hmul : base * (1 + durationAdjustmentFactor d) ≤ 0 :=
      mul_nonpos_of_nonpos_of_nonneg hb.le (by linarith)
    have h0 : round (base * (1 + durationAdjustmentFactor d)) ≤ 0 := by
      calc round (base * (1 + durationAdjustmentFactor d)) ≤ round (0:ℚ) :=
            round_mono_rat hmul
        _ = 0 := round_zero
    exact max_le (le_trans (le_trans h0 (by norm_num)) (le_max_right _ _))
      (le_max_right _ _)


end Theorems

end Avishkaar
